import Mathlib

/-!
Shallow embedding of the three dataset generators of the medqc repository:
`generate_d2_soap_templates.py`, `generate_d6_disease_staging.py` and
`generate_d8_department_mapping.py`.  Each Python generator builds an
in-memory list of records from literal tables and serializes it; here the
record construction is embedded as pure Lean definitions over lists, and
the claimed properties of the record sequences are proved below.
-/

/-- A SOAP template record, mirroring the dict built in
`generate_d2_soap_templates.py` lines 13-20. -/
structure SoapRecord where
  disease : String
  icdCode : String
  subjective : String
  objective : String
  assessment : String
  plan : String
deriving DecidableEq, Inhabited

/-- The fixed 30-element disease list of `generate_d2_soap_templates.py`
lines 4-9. -/
def diseases : List String := [
  "高血压", "2型糖尿病", "冠心病", "心力衰竭", "房颤", "脑梗死", "肺炎", "慢阻肺", "哮喘",
  "肝硬化", "消化性溃疡", "急性胰腺炎", "慢性肾病", "肾结石", "贫血", "甲亢", "痛风",
  "类风湿关节炎", "腰椎间盘突出", "骨折", "阑尾炎", "胆囊炎", "乳腺癌", "肺癌", "胃癌",
  "抑郁症", "癫痫", "帕金森病", "深静脉血栓", "败血症"
]

/-- The record list built by `generate_d2_soap_templates` (lines 11-21):
one record per disease, in list order; the placeholder code is
`"ICD-" + first character + character count` and the four text fields are
fixed sentence templates with the disease name interpolated. -/
def generate_d2_soap_templates : List SoapRecord :=
  diseases.map fun disease =>
    { disease := disease
      icdCode := "ICD-" ++ disease.front.toString ++ toString disease.length
      subjective := disease ++ "相关主诉：例如头晕、头痛、乏力等，持续X天/月/年..."
      objective := disease ++ "相关客观检查：例如BP XXX/XXX mmHg，心率XX次/分，体温XX℃，实验室检查异常等..."
      assessment := disease ++ "诊断评估：例如" ++ disease ++ "X级（极高危/高危/中危），病情稳定/进展/恶化..."
      plan := disease ++ "治疗计划：1. 药物调整 2. 生活方式干预 3. 定期复查 4. 健康教育..." }

/-- `strContainsSub s pat` holds when `pat` occurs contiguously inside `s`. -/
def strContainsSub (s pat : String) : Prop :=
  ∃ pre post : String, s = pre ++ pat ++ post

/-- One stage-detail object of `generate_d6_disease_staging.py`
(a dict with keys `stage`, `criteria`, `description`). -/
structure StageInfo where
  stage : String
  criteria : String
  description : String
deriving DecidableEq, Inhabited

/-- A disease-staging record, mirroring the dicts appended to `data` in
`generate_d6_disease_staging.py`. -/
structure StagingRecord where
  disease : String
  icdCode : String
  stagingSystem : String
  stages : List StageInfo
  category : String
deriving DecidableEq, Inhabited

/-- TNM disease table (`tnm_diseases`, lines 7-23); the Python dict
iterates in insertion order, so it is embedded as an association list. -/
def tnm_diseases : List (String × String) := [
  ("肺癌", "C34"), ("胃癌", "C16"), ("肝癌", "C22"), ("结直肠癌", "C18"),
  ("乳腺癌", "C50"), ("食管癌", "C15"), ("胰腺癌", "C25"), ("肾癌", "C64"),
  ("膀胱癌", "C67"), ("前列腺癌", "C61"), ("宫颈癌", "C53"), ("卵巢癌", "C56"),
  ("甲状腺癌", "C73"), ("黑色素瘤", "C43"), ("淋巴瘤", "C85")
]

/-- The TNM stage-detail list (lines 26-31). -/
def tnm_stage_infos : List StageInfo := [
  ⟨"I期", "T1-2N0M0", "肿瘤局限于原发器官，无淋巴结转移"⟩,
  ⟨"II期", "T1-2N1M0 或 T3N0M0", "肿瘤侵犯同侧淋巴结"⟩,
  ⟨"III期", "T3-4N1-2M0", "局部晚期，区域淋巴结广泛受累"⟩,
  ⟨"IV期", "任何T任何NM1", "远处转移"⟩
]

/-- NYHA disease table (`nyha_diseases`, lines 41-45). -/
def nyha_diseases : List (String × String) := [
  ("心力衰竭", "I50"), ("风湿性心脏病", "I09"), ("扩张型心肌病", "I42.0")
]

/-- The NYHA stage-detail list (lines 47-52). -/
def nyha_stage_infos : List StageInfo := [
  ⟨"I级", "无症状，日常活动不受限", "体力活动不受限制"⟩,
  ⟨"II级", "日常活动轻度受限，休息时无症状", "体力活动轻度受限"⟩,
  ⟨"III级", "日常活动明显受限，休息时无症状", "体力活动明显受限"⟩,
  ⟨"IV级", "任何体力活动均引起症状，休息时亦有症状", "不能进行任何体力活动"⟩
]

/-- CKD disease table (`ckd_diseases`, lines 62-66). -/
def ckd_diseases : List (String × String) := [
  ("慢性肾病", "N18"), ("糖尿病肾病", "E10.2"), ("高血压肾病", "I12")
]

/-- The CKD stage-detail list (lines 68-74). -/
def ckd_stage_infos : List StageInfo := [
  ⟨"1期", "GFR ≥ 90 mL/min/1.73m²", "肾功能正常或升高，伴有肾损伤证据"⟩,
  ⟨"2期", "GFR 60-89 mL/min/1.73m²", "肾功能轻度下降，伴有肾损伤证据"⟩,
  ⟨"3期", "GFR 30-59 mL/min/1.73m²", "肾功能中度下降"⟩,
  ⟨"4期", "GFR 15-29 mL/min/1.73m²", "肾功能重度下降"⟩,
  ⟨"5期", "GFR < 15 mL/min/1.73m² 或透析", "终末期肾病"⟩
]

/-- The COPD GOLD stage-detail list (lines 84-89); a single implicit
disease. -/
def gold_stage_infos : List StageInfo := [
  ⟨"I级 (轻度)", "FEV1/FVC < 0.70 且 FEV1 ≥ 80% 预计值", "轻度气流受限"⟩,
  ⟨"II级 (中度)", "FEV1/FVC < 0.70 且 50% ≤ FEV1 < 80% 预计值", "中度气流受限"⟩,
  ⟨"III级 (重度)", "FEV1/FVC < 0.70 且 30% ≤ FEV1 < 50% 预计值", "重度气流受限"⟩,
  ⟨"IV级 (极重度)", "FEV1/FVC < 0.70 且 FEV1 < 30% 预计值 或 FEV1 < 50% 预计值伴慢性呼吸衰竭", "极重度气流受限"⟩
]

/-- Child-Pugh disease table (`child_pugh_diseases`, lines 99-102). -/
def child_pugh_diseases : List (String × String) := [
  ("肝硬化", "K74"), ("肝衰竭", "K72")
]

/-- The Child-Pugh stage-detail list (lines 104-108). -/
def child_pugh_stage_infos : List StageInfo := [
  ⟨"A级", "5-6分", "肝功能代偿良好"⟩,
  ⟨"B级", "7-9分", "肝功能失代偿"⟩,
  ⟨"C级", "10-15分", "肝功能严重失代偿"⟩
]

/-- The blood-pressure grading stage-detail list (lines 118-122). -/
def bp_grade_stage_infos : List StageInfo := [
  ⟨"1级", "收缩压140-159 mmHg 或 舒张压90-99 mmHg", "轻度高血压"⟩,
  ⟨"2级", "收缩压160-179 mmHg 或 舒张压100-109 mmHg", "中度高血压"⟩,
  ⟨"3级", "收缩压≥180 mmHg 或 舒张压≥110 mmHg", "重度高血压"⟩
]

/-- The blood-pressure risk-stratification stage-detail list
(lines 130-134). -/
def bp_risk_stage_infos : List StageInfo := [
  ⟨"低危", "无靶器官损害，无糖尿病，无心血管疾病", "未来10年心血管事件风险<15%"⟩,
  ⟨"中危", "1-2个危险因素，无靶器官损害", "未来10年心血管事件风险15-20%"⟩,
  ⟨"高危", "≥3个危险因素 或 靶器官损害 或 糖尿病", "未来10年心血管事件风险20-30%"⟩,
  ⟨"很高危", "已有心血管疾病 或 糖尿病伴靶器官损害", "未来10年心血管事件风险>30%"⟩
]

/-- Diabetic retinopathy stage-detail list (lines 145-149). -/
def dm_retino_stage_infos : List StageInfo := [
  ⟨"非增殖期", "微动脉瘤、出血、硬性渗出", "早期病变"⟩,
  ⟨"增殖前期", "棉絮斑、静脉串珠样改变", "进展期病变"⟩,
  ⟨"增殖期", "新生血管形成、玻璃体出血", "晚期病变"⟩
]

/-- Diabetic nephropathy stage-detail list (lines 157-162). -/
def dm_nephro_stage_infos : List StageInfo := [
  ⟨"I期", "肾小球高滤过，肾脏肥大", "早期功能亢进"⟩,
  ⟨"II期", "正常白蛋白尿，肾脏病理改变", "正常白蛋白尿期"⟩,
  ⟨"III期", "微量白蛋白尿", "早期肾病期"⟩,
  ⟨"IV期", "临床白蛋白尿", "临床肾病期"⟩,
  ⟨"V期", "终末期肾病", "终末期肾病"⟩
]

/-- Diabetic peripheral neuropathy stage-detail list (lines 171-174). -/
def dm_neuro_stage_infos : List StageInfo := [
  ⟨"无症状期", "神经传导速度异常", "无临床症状"⟩,
  ⟨"症状期", "感觉异常、疼痛、麻木", "出现临床症状"⟩,
  ⟨"并发症期", "足溃疡、Charcot关节", "出现严重并发症"⟩
]

/-- Burn-degree stage-detail list (lines 185-189). -/
def burn_stage_infos : List StageInfo := [
  ⟨"I度", "红斑，无水疱", "表皮损伤"⟩,
  ⟨"浅II度", "水疱，基底潮红", "真皮浅层损伤"⟩,
  ⟨"深II度", "水疱，基底苍白，痛觉迟钝", "真皮深层损伤"⟩,
  ⟨"III度", "焦痂，无痛觉", "全层皮肤损伤"⟩
]

/-- AO fracture table (`ao_fractures`, lines 200-216). -/
def ao_fractures : List (String × String) := [
  ("股骨颈骨折", "S72.0"), ("股骨干骨折", "S72.3"), ("胫骨平台骨折", "S82.1"),
  ("踝关节骨折", "S82.8"), ("桡骨远端骨折", "S52.5"), ("肱骨近端骨折", "S42.2"),
  ("肱骨干骨折", "S42.3"), ("锁骨骨折", "S42.0"), ("脊柱压缩性骨折", "S32.0"),
  ("骨盆骨折", "S32.8"), ("股骨髁上骨折", "S72.4"), ("胫骨干骨折", "S82.2"),
  ("跟骨骨折", "S92.0"), ("舟骨骨折", "S62.0"), ("指骨骨折", "S62.6")
]

/-- AO-typing stage-detail list (lines 219-222). -/
def ao_stage_infos : List StageInfo := [
  ⟨"A型", "简单骨折", "骨折线单一"⟩,
  ⟨"B型", "楔形骨折", "有中间骨块"⟩,
  ⟨"C型", "复杂骨折", "粉碎性骨折"⟩
]

/-- ECOG performance-status stage-detail list (lines 233-238). -/
def ecog_stage_infos : List StageInfo := [
  ⟨"0分", "活动完全正常，无任何症状", "完全活动"⟩,
  ⟨"1分", "可自由活动，但不能从事重体力劳动", "轻度症状"⟩,
  ⟨"2分", "可自由活动，但不能从事任何工作，日间卧床时间少于50%", "中度症状"⟩,
  ⟨"3分", "日间卧床时间多于50%，但可生活自理", "重度症状"⟩,
  ⟨"4分", "完全卧床，生活不能自理", "完全卧床"⟩
]

/-- Glasgow Coma Scale stage-detail list (lines 249-252). -/
def gcs_stage_infos : List StageInfo := [
  ⟨"3-8分", "重度意识障碍", "昏迷"⟩,
  ⟨"9-12分", "中度意识障碍", "嗜睡或昏睡"⟩,
  ⟨"13-15分", "轻度意识障碍", "清醒或定向力障碍"⟩
]

/-- ASA physical-status stage-detail list (lines 263-269). -/
def asa_stage_infos : List StageInfo := [
  ⟨"I级", "健康患者", "无系统性疾病"⟩,
  ⟨"II级", "轻度系统性疾病", "如轻度高血压、糖尿病"⟩,
  ⟨"III级", "重度系统性疾病", "如控制不佳的高血压、糖尿病"⟩,
  ⟨"IV级", "危及生命的重度系统性疾病", "如不稳定心绞痛、重度COPD"⟩,
  ⟨"V级", "濒死患者", "预计24小时内死亡"⟩,
  ⟨"VI级", "脑死亡患者", "器官捐献者"⟩
]

/-- Forrest classification stage-detail list (lines 280-286). -/
def forrest_stage_infos : List StageInfo := [
  ⟨"Ia", "活动性喷射状出血", "高危"⟩,
  ⟨"Ib", "活动性渗血", "高危"⟩,
  ⟨"IIa", "非活动性可见血管", "中危"⟩,
  ⟨"IIb", "非活动性附着血凝块", "中危"⟩,
  ⟨"IIc", "非活动性黑色斑点基底", "低危"⟩,
  ⟨"III", "清洁基底", "低危"⟩
]

/-- Modified Rankin Scale stage-detail list (lines 297-304). -/
def mrs_stage_infos : List StageInfo := [
  ⟨"0分", "无症状", "完全恢复"⟩,
  ⟨"1分", "无明显残疾", "能够完成所有日常活动"⟩,
  ⟨"2分", "轻度残疾", "不能完成所有病前活动，但可独立生活"⟩,
  ⟨"3分", "中度残疾", "需要一些帮助，但无需他人持续照护"⟩,
  ⟨"4分", "中重度残疾", "需要持续照护，不能独立行走或生活"⟩,
  ⟨"5分", "重度残疾", "卧床不起，大小便失禁，需要持续护理"⟩,
  ⟨"6分", "死亡", "死亡"⟩
]

/-- Helper mirroring the nested append loop of the staging generator:
for each disease of a table, one record per stage-detail entry, with a
fixed staging-system and category label. -/
def stagingBlock (table : List (String × String)) (system category : String) (infos : List StageInfo) : List StagingRecord :=
  (table.map fun p => infos.map fun si =>
    { disease := p.1, icdCode := p.2, stagingSystem := system
      stages := [si], category := category }).flatten

/-- The record list built by `generate_d6_disease_staging`
(lines 3-312): the seventeen staging blocks appended in source order. -/
def generate_d6_disease_staging : List StagingRecord :=
  stagingBlock tnm_diseases "TNM" "肿瘤分期" tnm_stage_infos
  ++ stagingBlock nyha_diseases "NYHA" "心功能分级" nyha_stage_infos
  ++ stagingBlock ckd_diseases "CKD" "肾病分期" ckd_stage_infos
  ++ stagingBlock [("慢性阻塞性肺疾病", "J44")] "GOLD" "肺病分级" gold_stage_infos
  ++ stagingBlock child_pugh_diseases "Child-Pugh" "肝病分级" child_pugh_stage_infos
  ++ stagingBlock [("高血压", "I10")] "分级" "心血管分级" bp_grade_stage_infos
  ++ stagingBlock [("高血压", "I10")] "危险分层" "心血管分级" bp_risk_stage_infos
  ++ stagingBlock [("糖尿病视网膜病变", "E10.3")] "分期" "糖尿病并发症分期" dm_retino_stage_infos
  ++ stagingBlock [("糖尿病肾病", "E10.2")] "分期" "糖尿病并发症分期" dm_nephro_stage_infos
  ++ stagingBlock [("糖尿病周围神经病变", "E10.4")] "分期" "糖尿病并发症分期" dm_neuro_stage_infos
  ++ stagingBlock [("烧伤", "T30")] "分度" "创伤分度" burn_stage_infos
  ++ stagingBlock ao_fractures "AO分型" "骨折分型" ao_stage_infos
  ++ stagingBlock [("肿瘤患者一般状况", "Z08.8")] "ECOG PS" "一般状况评分" ecog_stage_infos
  ++ stagingBlock [("意识障碍", "R40.2")] "GCS" "神经功能评分" gcs_stage_infos
  ++ stagingBlock [("麻醉风险评估", "Z01.8")] "ASA PS" "麻醉风险评估" asa_stage_infos
  ++ stagingBlock [("消化性溃疡出血", "K27.4")] "Forrest" "消化道出血分级" forrest_stage_infos
  ++ stagingBlock [("脑卒中功能预后", "I63")] "mRS" "神经功能评分" mrs_stage_infos

/-- A hospital-department record, mirroring the dicts of
`generate_d8_department_mapping.py`.  Bed counts are Python ints and so
are embedded as `Int`. -/
structure DepartmentRecord where
  departmentCode : String
  departmentName : String
  aliases : List String
  category : String
  wards : List String
  bedCount : Int
  specialRequirements : List String
deriving DecidableEq, Inhabited

/-- The literal record list of `generate_d8_department_mapping`
(lines 4-293), emitted unmodified. -/
def generate_d8_department_mapping : List DepartmentRecord := [
  ⟨"ICU", "重症医学科", ["ICU", "重症监护室", "MICU", "SICU"], "急危重症",
    ["ICU-A区", "ICU-B区"], 30, ["24小时监护", "呼吸机管理", "CRRT"]⟩,
  ⟨"ER", "急诊科", ["急诊", "急诊室"], "急危重症",
    ["急诊抢救室", "急诊观察室"], 20, ["快速诊断", "紧急处理", "多学科协作"]⟩,
  ⟨"CARD", "心血管内科", ["心内科", "心内"], "内科系统",
    ["心内一病区", "心内二病区"], 60, ["心电监护", "介入治疗", "心脏康复"]⟩,
  ⟨"RESP", "呼吸内科", ["呼吸科", "呼吸"], "内科系统",
    ["呼吸一病区", "呼吸二病区"], 55, ["呼吸机支持", "支气管镜", "肺功能检查"]⟩,
  ⟨"GASTRO", "消化内科", ["消化科", "消化"], "内科系统",
    ["消化一病区", "消化二病区"], 50, ["胃肠镜", "肝穿刺", "内镜下治疗"]⟩,
  ⟨"NEPHRO", "肾脏内科", ["肾内科", "肾内"], "内科系统",
    ["肾内病区"], 40, ["血液透析", "腹膜透析", "肾活检"]⟩,
  ⟨"ENDO", "内分泌科", ["内分泌"], "内科系统",
    ["内分泌病区"], 45, ["血糖管理", "甲状腺功能评估", "骨密度检查"]⟩,
  ⟨"HEMA", "血液内科", ["血液科"], "内科系统",
    ["血液病区"], 35, ["骨髓穿刺", "化疗", "造血干细胞移植"]⟩,
  ⟨"RHEUM", "风湿免疫科", ["风湿科"], "内科系统",
    ["风湿免疫病区"], 30, ["免疫抑制剂治疗", "关节腔穿刺"]⟩,
  ⟨"NEURO", "神经内科", ["神内科", "神内"], "内科系统",
    ["神内一病区", "神内二病区"], 60, ["脑电图", "肌电图", "神经康复"]⟩,
  ⟨"INFECT", "感染科", ["传染科"], "内科系统",
    ["感染病区"], 30, ["隔离管理", "抗感染治疗"]⟩,
  ⟨"GSURG", "普通外科", ["普外科", "普外"], "外科系统",
    ["普外一病区", "普外二病区"], 70, ["腹腔镜手术", "胃肠道手术", "甲状腺手术"]⟩,
  ⟨"ORTHO", "骨科", ["骨外科"], "外科系统",
    ["骨科一病区", "骨科二病区"], 80, ["关节置换", "脊柱手术", "创伤修复"]⟩,
  ⟨"CTS", "心胸外科", ["胸外科", "心外科"], "外科系统",
    ["心胸外科病区"], 40, ["心脏搭桥", "肺叶切除", "食管癌手术"]⟩,
  ⟨"URO", "泌尿外科", ["泌外"], "外科系统",
    ["泌尿外科病区"], 45, ["肾移植", "膀胱镜", "前列腺手术"]⟩,
  ⟨"NSURG", "神经外科", ["神外科", "神外"], "外科系统",
    ["神经外科病区"], 50, ["脑肿瘤切除", "脑血管介入", "脊髓手术"]⟩,
  ⟨"PLAST", "烧伤整形科", ["整形外科"], "外科系统",
    ["烧伤病区", "整形病区"], 30, ["烧伤治疗", "皮肤移植", "美容整形"]⟩,
  ⟨"OBGYN", "妇产科", ["妇科", "产科"], "妇产科",
    ["妇科病区", "产科病区"], 60, ["分娩", "妇科肿瘤手术", "产前检查"]⟩,
  ⟨"PED", "儿科", ["儿内科", "儿外科"], "儿科",
    ["儿科病区", "新生儿病区"], 50, ["儿童常见病", "新生儿监护", "儿童保健"]⟩,
  ⟨"OPHTH", "眼科", ["眼耳鼻喉科"], "五官科",
    ["眼科病区"], 25, ["白内障手术", "眼底检查", "激光治疗"]⟩,
  ⟨"ENT", "耳鼻咽喉科", ["耳鼻喉科"], "五官科",
    ["耳鼻喉科病区"], 25, ["听力检查", "鼻内镜手术", "扁桃体切除"]⟩,
  ⟨"ORAL", "口腔科", ["口腔颌面外科"], "五官科",
    ["口腔科病区"], 20, ["牙齿种植", "颌面部手术", "口腔修复"]⟩,
  ⟨"DERM", "皮肤科", ["皮肤性病科"], "其他",
    ["皮肤科病区"], 15, ["皮肤病诊断", "激光治疗", "皮肤活检"]⟩,
  ⟨"TCM", "中医科", ["中西医结合科"], "其他",
    ["中医科病区"], 20, ["中医辨证", "针灸", "中药治疗"]⟩,
  ⟨"REHAB", "康复医学科", ["康复科"], "其他",
    ["康复病区"], 30, ["物理治疗", "作业治疗", "言语治疗"]⟩,
  ⟨"ONCO", "肿瘤科", ["肿瘤内科", "肿瘤外科"], "其他",
    ["肿瘤一病区", "肿瘤二病区"], 50, ["化疗", "放疗", "靶向治疗"]⟩,
  ⟨"GERI", "老年医学科", ["老年科"], "其他",
    ["老年病区"], 30, ["老年综合评估", "多重用药管理"]⟩,
  ⟨"PSYCH", "精神医学科", ["精神科"], "其他",
    ["精神科病区"], 40, ["心理治疗", "药物治疗", "电休克治疗"]⟩,
  ⟨"ANESTH", "麻醉科", ["麻醉"], "其他",
    ["麻醉恢复室"], 10, ["术中麻醉管理", "疼痛管理"]⟩,
  ⟨"PATH", "病理科", ["病理"], "其他",
    [], 0, ["组织病理诊断", "细胞学诊断"]⟩,
  ⟨"RADI", "放射科", ["影像科"], "其他",
    [], 0, ["X线", "CT", "MRI", "超声"]⟩,
  ⟨"LAB", "检验科", ["化验室"], "其他",
    [], 0, ["血液检验", "生化检验", "免疫检验"]⟩
]

/-- Disease-to-ICD association extracted from the staging tables (each
disease listed once; `糖尿病肾病` appears both in `ckd_diseases` and in the
diabetic-nephropathy block with the same code `E10.2`, and `高血压` in both
blood-pressure blocks with code `I10`). -/
def staging_icd_table : List (String × String) :=
  tnm_diseases ++ nyha_diseases ++ ckd_diseases
  ++ [("慢性阻塞性肺疾病", "J44")] ++ child_pugh_diseases
  ++ [("高血压", "I10"), ("糖尿病视网膜病变", "E10.3"), ("糖尿病周围神经病变", "E10.4"),
      ("烧伤", "T30")]
  ++ ao_fractures
  ++ [("肿瘤患者一般状况", "Z08.8"), ("意识障碍", "R40.2"), ("麻醉风险评估", "Z01.8"),
      ("消化性溃疡出血", "K27.4"), ("脑卒中功能预后", "I63")]

set_option maxRecDepth 8192 in
/-- Claim C1 (counterexample): the disease name `"高血压"` has three
characters, not two, so the SOAP generator derives `"ICD-高3"`; no record
for `"高血压"` carries the code `"ICD-高2"` stated by the claim. -/
theorem soap_hypertension_icd_cx :
    "高血压".length = 3 ∧
    ¬ ∃ r ∈ generate_d2_soap_templates, r.disease = "高血压" ∧ r.icdCode = "ICD-高2" :=
  ⟨by decide, by decide⟩

set_option maxRecDepth 8192 in
/-- Claim C1 (amended): the input disease `"高血压"` (length 3, first
character `高`) yields exactly one record, whose `icdCode` equals
`"ICD-高3"` and whose `subjective` field contains the substring
`"高血压相关主诉"`. -/
theorem soap_hypertension_record :
    (generate_d2_soap_templates.filter fun r => r.disease == "高血压").length = 1 ∧
    ∃ r ∈ generate_d2_soap_templates, r.disease = "高血压" ∧ r.icdCode = "ICD-高3" ∧
      strContainsSub r.subjective "高血压相关主诉" := by
  refine ⟨by decide, generate_d2_soap_templates.headD default, by decide, by decide, by decide,
    "", "：例如头晕、头痛、乏力等，持续X天/月/年...", by decide⟩

set_option maxRecDepth 8192 in
/-- Claim C2: each generator emits one record per (entity, variant) pair
of its literal tables: the SOAP generator one record per disease of its
30-element list, the staging generator the sum over each staging block of
|diseases| × |stage levels|, and the department generator one record per
literal department definition (32). -/
theorem generator_record_counts :
    generate_d2_soap_templates.length = diseases.length ∧ diseases.length = 30 ∧
    generate_d6_disease_staging.length =
      tnm_diseases.length * tnm_stage_infos.length
      + nyha_diseases.length * nyha_stage_infos.length
      + ckd_diseases.length * ckd_stage_infos.length
      + gold_stage_infos.length
      + child_pugh_diseases.length * child_pugh_stage_infos.length
      + bp_grade_stage_infos.length + bp_risk_stage_infos.length
      + dm_retino_stage_infos.length + dm_nephro_stage_infos.length + dm_neuro_stage_infos.length
      + burn_stage_infos.length
      + ao_fractures.length * ao_stage_infos.length
      + ecog_stage_infos.length + gcs_stage_infos.length + asa_stage_infos.length
      + forrest_stage_infos.length + mrs_stage_infos.length ∧
    generate_d8_department_mapping.length = 32 :=
  ⟨by decide, by decide, by decide, by decide⟩

/-- Claim C3: each generator is deterministic — any two runs over the
unchanged literal tables produce the same record sequence (the
construction is a pure function of its tables, with no other input). -/
theorem generators_deterministic
    (s1 s2 : List SoapRecord) (d1 d2 : List StagingRecord) (m1 m2 : List DepartmentRecord)
    (hs1 : s1 = generate_d2_soap_templates) (hs2 : s2 = generate_d2_soap_templates)
    (hd1 : d1 = generate_d6_disease_staging) (hd2 : d2 = generate_d6_disease_staging)
    (hm1 : m1 = generate_d8_department_mapping) (hm2 : m2 = generate_d8_department_mapping) :
    s1 = s2 ∧ d1 = d2 ∧ m1 = m2 :=
  ⟨hs1.trans hs2.symm, hd1.trans hd2.symm, hm1.trans hm2.symm⟩

/-- Witness for claim C3 at the three generators themselves. -/
theorem generators_deterministic_witness :
    generate_d2_soap_templates = generate_d2_soap_templates ∧
    generate_d6_disease_staging = generate_d6_disease_staging ∧
    generate_d8_department_mapping = generate_d8_department_mapping :=
  generators_deterministic _ _ _ _ _ _ rfl rfl rfl rfl rfl rfl

set_option maxRecDepth 16384 in
/-- Claim C4: every record produced by the disease-staging generator has
a `stages` list of length exactly 1 (in particular, none is empty). -/
theorem staging_stages_singleton (r : StagingRecord)
    (hr : r ∈ generate_d6_disease_staging) : r.stages.length = 1 := by
  have h : ∀ x ∈ generate_d6_disease_staging, x.stages.length = 1 := by decide
  exact h r hr

set_option maxRecDepth 8192 in
/-- Witness for claim C4 at the first staging record. -/
theorem staging_stages_singleton_witness :
    ((generate_d6_disease_staging.headD default).stages).length = 1 :=
  staging_stages_singleton (generate_d6_disease_staging.headD default) (by decide)

set_option maxRecDepth 8192 in
/-- Claim C5: the `departmentCode` fields of the department-mapping output
are pairwise distinct. -/
theorem department_codes_unique :
    (generate_d8_department_mapping.map fun r => r.departmentCode).Nodup := by decide

set_option maxRecDepth 8192 in
/-- Claim C6: the SOAP generator emits exactly one record per input
disease in input order (the projected disease column equals the input
list), and the disease field is unique within the output. -/
theorem soap_records_match_disease_list :
    generate_d2_soap_templates.map (fun r => r.disease) = diseases ∧
    (generate_d2_soap_templates.map fun r => r.disease).Nodup :=
  ⟨by decide, by decide⟩

set_option maxRecDepth 16384 in
/-- Claim C7: one record per (disease, stage-detail) pair with both
orders preserved, over all seventeen staging blocks: disease
`"心力衰竭"` under system `"NYHA"` yields exactly 4 records labelled
`I级,II级,III级,IV级` in that order with `icdCode` `"I50"`; for each
multi-disease table (TNM, NYHA, CKD, Child-Pugh, AO) the records of
that system are precisely the cross product of the disease table with
its authored stage list, in authored order; and for each of the twelve
single-disease blocks (GOLD, 分级, 危险分层, the three 分期 blocks, 分度,
ECOG PS, GCS, ASA PS, Forrest, mRS) the records of that
(disease, system) pair carry exactly the authored stage-detail entries
in authored order with the block's ICD code. -/
theorem staging_order_preserved :
    ((generate_d6_disease_staging.filter fun r =>
        r.disease == "心力衰竭" && r.stagingSystem == "NYHA").map
        (fun r => (r.stages.map StageInfo.stage, r.icdCode))
      = [(["I级"], "I50"), (["II级"], "I50"), (["III级"], "I50"), (["IV级"], "I50")]) ∧
    ((generate_d6_disease_staging.filter fun r => r.stagingSystem == "TNM").map
        (fun r => (r.disease, r.icdCode, r.stages))
      = (tnm_diseases.map fun p =>
          tnm_stage_infos.map fun si => (p.1, p.2, ([si] : List StageInfo))).flatten) ∧
    ((generate_d6_disease_staging.filter fun r => r.stagingSystem == "NYHA").map
        (fun r => (r.disease, r.icdCode, r.stages))
      = (nyha_diseases.map fun p =>
          nyha_stage_infos.map fun si => (p.1, p.2, ([si] : List StageInfo))).flatten) ∧
    ((generate_d6_disease_staging.filter fun r => r.stagingSystem == "CKD").map
        (fun r => (r.disease, r.icdCode, r.stages))
      = (ckd_diseases.map fun p =>
          ckd_stage_infos.map fun si => (p.1, p.2, ([si] : List StageInfo))).flatten) ∧
    ((generate_d6_disease_staging.filter fun r => r.stagingSystem == "Child-Pugh").map
        (fun r => (r.disease, r.icdCode, r.stages))
      = (child_pugh_diseases.map fun p =>
          child_pugh_stage_infos.map fun si => (p.1, p.2, ([si] : List StageInfo))).flatten) ∧
    ((generate_d6_disease_staging.filter fun r => r.stagingSystem == "AO分型").map
        (fun r => (r.disease, r.icdCode, r.stages))
      = (ao_fractures.map fun p =>
          ao_stage_infos.map fun si => (p.1, p.2, ([si] : List StageInfo))).flatten) ∧
    ((generate_d6_disease_staging.filter fun r =>
        r.disease == "慢性阻塞性肺疾病" && r.stagingSystem == "GOLD").map
        (fun r => (r.icdCode, r.stages))
      = gold_stage_infos.map fun si => ("J44", ([si] : List StageInfo))) ∧
    ((generate_d6_disease_staging.filter fun r =>
        r.disease == "高血压" && r.stagingSystem == "分级").map
        (fun r => (r.icdCode, r.stages))
      = bp_grade_stage_infos.map fun si => ("I10", ([si] : List StageInfo))) ∧
    ((generate_d6_disease_staging.filter fun r =>
        r.disease == "高血压" && r.stagingSystem == "危险分层").map
        (fun r => (r.icdCode, r.stages))
      = bp_risk_stage_infos.map fun si => ("I10", ([si] : List StageInfo))) ∧
    ((generate_d6_disease_staging.filter fun r =>
        r.disease == "糖尿病视网膜病变" && r.stagingSystem == "分期").map
        (fun r => (r.icdCode, r.stages))
      = dm_retino_stage_infos.map fun si => ("E10.3", ([si] : List StageInfo))) ∧
    ((generate_d6_disease_staging.filter fun r =>
        r.disease == "糖尿病肾病" && r.stagingSystem == "分期").map
        (fun r => (r.icdCode, r.stages))
      = dm_nephro_stage_infos.map fun si => ("E10.2", ([si] : List StageInfo))) ∧
    ((generate_d6_disease_staging.filter fun r =>
        r.disease == "糖尿病周围神经病变" && r.stagingSystem == "分期").map
        (fun r => (r.icdCode, r.stages))
      = dm_neuro_stage_infos.map fun si => ("E10.4", ([si] : List StageInfo))) ∧
    ((generate_d6_disease_staging.filter fun r =>
        r.disease == "烧伤" && r.stagingSystem == "分度").map
        (fun r => (r.icdCode, r.stages))
      = burn_stage_infos.map fun si => ("T30", ([si] : List StageInfo))) ∧
    ((generate_d6_disease_staging.filter fun r =>
        r.disease == "肿瘤患者一般状况" && r.stagingSystem == "ECOG PS").map
        (fun r => (r.icdCode, r.stages))
      = ecog_stage_infos.map fun si => ("Z08.8", ([si] : List StageInfo))) ∧
    ((generate_d6_disease_staging.filter fun r =>
        r.disease == "意识障碍" && r.stagingSystem == "GCS").map
        (fun r => (r.icdCode, r.stages))
      = gcs_stage_infos.map fun si => ("R40.2", ([si] : List StageInfo))) ∧
    ((generate_d6_disease_staging.filter fun r =>
        r.disease == "麻醉风险评估" && r.stagingSystem == "ASA PS").map
        (fun r => (r.icdCode, r.stages))
      = asa_stage_infos.map fun si => ("Z01.8", ([si] : List StageInfo))) ∧
    ((generate_d6_disease_staging.filter fun r =>
        r.disease == "消化性溃疡出血" && r.stagingSystem == "Forrest").map
        (fun r => (r.icdCode, r.stages))
      = forrest_stage_infos.map fun si => ("K27.4", ([si] : List StageInfo))) ∧
    ((generate_d6_disease_staging.filter fun r =>
        r.disease == "脑卒中功能预后" && r.stagingSystem == "mRS").map
        (fun r => (r.icdCode, r.stages))
      = mrs_stage_infos.map fun si => ("I63", ([si] : List StageInfo))) := by
  repeat' apply And.intro
  all_goals decide

set_option maxRecDepth 8192 in
/-- Claim C8: every department record has a non-negative bed count, and a
bed count of zero implies an empty ward list. -/
theorem department_bedcount_invariant (r : DepartmentRecord)
    (hr : r ∈ generate_d8_department_mapping) :
    0 ≤ r.bedCount ∧ (r.bedCount = 0 → r.wards = []) := by
  have h : ∀ x ∈ generate_d8_department_mapping,
      0 ≤ x.bedCount ∧ (x.bedCount = 0 → x.wards = []) := by decide
  exact h r hr

set_option maxRecDepth 8192 in
/-- Witness for claim C8 at the first department record. -/
theorem department_bedcount_invariant_witness :
    0 ≤ (generate_d8_department_mapping.headD default).bedCount ∧
    ((generate_d8_department_mapping.headD default).bedCount = 0 →
      (generate_d8_department_mapping.headD default).wards = []) :=
  department_bedcount_invariant (generate_d8_department_mapping.headD default) (by decide)

set_option maxRecDepth 16384 in
/-- Claim C9: within the staging output, `icdCode` is a function of the
`disease` field — any two staging records with the same disease (even
under different staging systems) carry the same ICD code. -/
theorem staging_icd_functional (r1 r2 : StagingRecord)
    (h1 : r1 ∈ generate_d6_disease_staging) (h2 : r2 ∈ generate_d6_disease_staging)
    (hd : r1.disease = r2.disease) : r1.icdCode = r2.icdCode := by
  have key : ∀ r ∈ generate_d6_disease_staging,
      staging_icd_table.lookup r.disease = some r.icdCode := by decide
  have k1 := key r1 h1
  have k2 := key r2 h2
  rw [hd] at k1
  rw [k2] at k1
  exact (Option.some.inj k1).symm

set_option maxRecDepth 8192 in
/-- Witness for claim C9 at the two `高血压` records under the systems
`分级` (index 97) and `危险分层` (index 100). -/
theorem staging_icd_functional_witness :
    ((generate_d6_disease_staging.drop 97).headD default).icdCode
      = ((generate_d6_disease_staging.drop 100).headD default).icdCode :=
  staging_icd_functional
    ((generate_d6_disease_staging.drop 97).headD default)
    ((generate_d6_disease_staging.drop 100).headD default)
    (by decide) (by decide) (by decide)

set_option maxRecDepth 8192 in
/-- Claim C10: the derived SOAP placeholder code is not unique even though
the disease field is — `"肺炎"` and `"肺癌"` share first character and
length, so both records carry `icdCode` `"ICD-肺2"`. -/
theorem soap_icd_code_collision :
    ∃ r1 ∈ generate_d2_soap_templates, ∃ r2 ∈ generate_d2_soap_templates,
      r1.disease = "肺炎" ∧ r2.disease = "肺癌" ∧ r1.disease ≠ r2.disease ∧
      r1.icdCode = r2.icdCode ∧ r1.icdCode = "ICD-肺2" := by
  refine ⟨(generate_d2_soap_templates.drop 6).headD default, by decide,
    (generate_d2_soap_templates.drop 23).headD default, by decide,
    by decide, by decide, by decide, by decide, by decide⟩
